import Mathlib

/-!
Verification of the CFF table codec in write-fonts (tables/cff.rs and
tables/cff2.rs): a shallow embedding of the data model and of the operations
the specification talks about, followed by theorems settling the claims.

Modelling conventions:
  - Machine integers are Nat; wrap-around casts are explicit mod operations.
  - Byte buffers are List Nat whose elements are byte values.
  - Fallible Rust code returns Res: ok carries the value, err carries a typed
    error mirroring the source error message, crash models a Rust panic
    (out-of-bounds slice or debug overflow/underflow).
  - Rust strings are represented by their UTF-8 byte lists.
-/

namespace CffCodec

/-- Typed errors, one constructor per distinct error produced by the source
(the source uses string messages; constructor names paraphrase them). -/
inductive ResErr where
  | topDictIndexOutOfBounds
  | stringIndexOutOfBounds
  | invalidOffsetSizeInTopDictIndex
  | invalidOffsetSizeInStringIndex
  | offsetPositionOutOfBounds
  | invalidOffsetRangeInTopDictIndex
  | invalidOffsetRangeInStringIndex
  | invalidOffsetSize
  | noTopDict
  | dictParseError
  | truncatedIndex
  | malformedOffsets
  | truncatedHeader
  deriving Repr, DecidableEq

/-- Outcome of a fallible Rust computation: ok value, typed error,
or a panic (the crash constructor). -/
inductive Res (α : Type) where
  | ok (a : α)
  | err (e : ResErr)
  | crash
  deriving Repr, DecidableEq

end CffCodec

namespace CffCodec

/-- Monadic sequencing of Res, the model of the Rust question-mark
operator: ok feeds the continuation, err and crash propagate. -/
def Res.bind {α β : Type} : Res α → (α → Res β) → Res β
  | .ok a, f => f a
  | .err e, _ => .err e
  | .crash, _ => .crash

/-- Rust slice l[a..b]: panics when a > b or b > l.length, otherwise yields
the sub-list. -/
def rslice (l : List Nat) (a b : Nat) : Res (List Nat) :=
  if a ≤ b ∧ b ≤ l.length then .ok ((l.take b).drop a) else .crash

/-- Rust indexing l[i]: panics when i is out of bounds. -/
def ridx (l : List Nat) (i : Nat) : Res Nat :=
  match l.get? i with
  | some v => .ok v
  | none => .crash

/-- The CFF header record of the write types (major, minor, header_size,
off_size, all u8). -/
structure CffHeader where
  major : Nat
  minor : Nat
  header_size : Nat
  off_size : Nat
  deriving Repr, DecidableEq

/-- The Index1 write type: count (u16), off_size (u8), raw offset bytes and
the data blob, exactly as the write-fonts struct stores them. -/
structure Index1 where
  count : Nat
  off_size : Nat
  offsets : List Nat
  data : List Nat
  deriving Repr, DecidableEq

/-- The Cff write type: header plus the four INDEX structures. -/
structure Cff where
  header : CffHeader
  names : Index1
  top_dicts : Index1
  strings : Index1
  global_subrs : Index1
  deriving Repr, DecidableEq

/-- read_offset from cff.rs: big-endian decode of exactly off_size bytes for
off_size 1 to 4, an InvalidOffsetSize error otherwise; indexing beyond the
slice length panics, as in Rust. -/
def readOffset (bytes : List Nat) (off_size : Nat) : Res Nat :=
  match off_size with
  | 1 => match ridx bytes 0 with
    | .ok b0 => .ok b0
    | .err e => .err e
    | .crash => .crash
  | 2 =>
    match ridx bytes 0, ridx bytes 1 with
    | .ok b0, .ok b1 => .ok (b0 * 256 + b1)
    | _, _ => .crash
  | 3 =>
    match ridx bytes 0, ridx bytes 1, ridx bytes 2 with
    | .ok b0, .ok b1, .ok b2 => .ok (b0 * 65536 + b1 * 256 + b2)
    | _, _, _ => .crash
  | 4 =>
    match ridx bytes 0, ridx bytes 1, ridx bytes 2, ridx bytes 3 with
    | .ok b0, .ok b1, .ok b2, .ok b3 =>
        .ok (b0 * 16777216 + b1 * 65536 + b2 * 256 + b3)
    | _, _, _, _ => .crash
  | _ => .err .invalidOffsetSize

/-- get_top_dict_bytes from cff.rs: bounds-checked extraction of the
index-th Top DICT byte string. The source checks only that the end offset
position itself is within the offsets array before slicing off_size bytes
starting there, and subtracts 1 from a u32 start offset; both slips are
modelled as crash outcomes. -/
def getTopDictBytes (c : Cff) (index : Nat) : Res (List Nat) :=
  if c.top_dicts.count ≤ index then .err .topDictIndexOutOfBounds
  else
    let w := c.top_dicts.off_size
    if w = 0 ∨ 4 < w then .err .invalidOffsetSizeInTopDictIndex
    else
      let offs := c.top_dicts.offsets
      let startPos := index * w
      let endPos := (index + 1) * w
      if offs.length < endPos then .err .offsetPositionOutOfBounds
      else
        Res.bind (rslice offs startPos (startPos + w)) (fun sb =>
        Res.bind (rslice offs endPos (endPos + w)) (fun eb =>
        Res.bind (readOffset sb w) (fun so =>
        Res.bind (readOffset eb w) (fun eo =>
        if eo ≤ so ∨ c.top_dicts.data.length + 1 < eo then
          .err .invalidOffsetRangeInTopDictIndex
        else if so = 0 then .crash
        else rslice c.top_dicts.data (so - 1) (eo - 1)))))

/-- get_string_bytes from cff.rs: same shape as getTopDictBytes but over the
strings INDEX, with the string-index error messages. -/
def getStringBytes (c : Cff) (index : Nat) : Res (List Nat) :=
  if c.strings.count ≤ index then .err .stringIndexOutOfBounds
  else
    let w := c.strings.off_size
    if w = 0 ∨ 4 < w then .err .invalidOffsetSizeInStringIndex
    else
      let offs := c.strings.offsets
      let startPos := index * w
      let endPos := (index + 1) * w
      if offs.length < endPos then .err .offsetPositionOutOfBounds
      else
        Res.bind (rslice offs startPos (startPos + w)) (fun sb =>
        Res.bind (rslice offs endPos (endPos + w)) (fun eb =>
        Res.bind (readOffset sb w) (fun so =>
        Res.bind (readOffset eb w) (fun eo =>
        if eo ≤ so ∨ c.strings.data.length + 1 < eo then
          .err .invalidOffsetRangeInStringIndex
        else if so = 0 then .crash
        else rslice c.strings.data (so - 1) (eo - 1)))))

/-- Decimal digit expansion of a Nat as ASCII byte values, fuelled so that it
reduces definitionally. -/
def decDigitsAux : Nat → Nat → List Nat
  | 0, _ => []
  | fuel + 1, n =>
    if n < 10 then [48 + n]
    else decDigitsAux fuel (n / 10) ++ [48 + n % 10]

/-- ASCII decimal rendering of a Nat. -/
def decDigits (n : Nat) : List Nat := decDigitsAux (n + 1) n

/-- Is a byte a UTF-8 continuation byte. -/
def isCont (b : Nat) : Bool := 128 ≤ b && b ≤ 191

/-- The UTF-8 replacement character as bytes. -/
def repChar : List Nat := [239, 191, 189]

/-- Second-byte range check for a 3-byte UTF-8 sequence led by b. -/
def cont3 (b b1 : Nat) : Bool :=
  if b = 224 then 160 ≤ b1 && b1 ≤ 191
  else if b = 237 then 128 ≤ b1 && b1 ≤ 159
  else isCont b1

/-- Second-byte range check for a 4-byte UTF-8 sequence led by b. -/
def cont4 (b b1 : Nat) : Bool :=
  if b = 240 then 144 ≤ b1 && b1 ≤ 191
  else if b = 244 then 128 ≤ b1 && b1 ≤ 143
  else isCont b1

/-- Fuelled worker for the lossy UTF-8 validation performed by the standard
library function from_utf8_lossy: valid sequences are copied through, invalid
ones are replaced by the replacement character. -/
def utf8LossyAux : Nat → List Nat → List Nat
  | 0, _ => []
  | _, [] => []
  | fuel + 1, b :: rest =>
    if b < 128 then b :: utf8LossyAux fuel rest
    else if b < 194 then repChar ++ utf8LossyAux fuel rest
    else if b ≤ 223 then
      match rest with
      | b1 :: r =>
        if isCont b1 then b :: b1 :: utf8LossyAux fuel r
        else repChar ++ utf8LossyAux fuel rest
      | [] => repChar
    else if b ≤ 239 then
      match rest with
      | b1 :: b2 :: r =>
        if cont3 b b1 && isCont b2 then b :: b1 :: b2 :: utf8LossyAux fuel r
        else repChar ++ utf8LossyAux fuel rest
      | _ => repChar ++ utf8LossyAux fuel rest
    else if b ≤ 244 then
      match rest with
      | b1 :: b2 :: b3 :: r =>
        if cont4 b b1 && isCont b2 && isCont b3 then
          b :: b1 :: b2 :: b3 :: utf8LossyAux fuel r
        else repChar ++ utf8LossyAux fuel rest
      | _ => repChar ++ utf8LossyAux fuel rest
    else repChar ++ utf8LossyAux fuel rest

/-- Model of String::from_utf8_lossy on byte lists. -/
def utf8Lossy (l : List Nat) : List Nat := utf8LossyAux l.length l

/-- ASCII bytes of the text .notdef. -/
def notdefBytes : List Nat := [46, 110, 111, 116, 100, 101, 102]

/-- ASCII bytes of the text space. -/
def spaceBytes : List Nat := [115, 112, 97, 99, 101]

/-- ASCII bytes of the text exclam. -/
def exclamBytes : List Nat := [101, 120, 99, 108, 97, 109]

/-- ASCII bytes of the text quotedbl. -/
def quotedblBytes : List Nat := [113, 117, 111, 116, 101, 100, 98, 108]

/-- ASCII bytes of the placeholder text StandardString_ followed by the
decimal id, as produced by the source for standard ids above 3. -/
def standardPlaceholder (id : Nat) : List Nat :=
  [83, 116, 97, 110, 100, 97, 114, 100, 83, 116, 114, 105, 110, 103, 95]
    ++ decDigits id

/-- The builtin standard-string lookup the source performs for ids below
391: real names for ids 0 to 3, placeholder text otherwise. -/
def standardStringLookup (id : Nat) : List Nat :=
  match id with
  | 0 => notdefBytes
  | 1 => spaceBytes
  | 2 => exclamBytes
  | 3 => quotedblBytes
  | _ => standardPlaceholder id

/-- resolve_string from cff.rs: ids below 391 resolve through the builtin
standard lookup, ids of 391 and above index the strings INDEX at id - 391
with the bytes decoded lossily. -/
def resolveString (c : Cff) (id : Nat) : Res (List Nat) :=
  if id < 391 then .ok (standardStringLookup id)
  else
    Res.bind (getStringBytes c (id - 391)) (fun bytes => .ok (utf8Lossy bytes))

/-- A PostScript DICT operand: an integer, or a real kept as its raw
nibble-encoded bytes. -/
inductive Operand where
  | int (i : Int)
  | real (nibbles : List Nat)
  deriving Repr, DecidableEq

/-- Modelled from the spec: the closed set of Top DICT entries of the
read-fonts dict module (the PostScript DICT operator grammar is an external
collaborator, not under src). Operator codes follow section 6 of the spec. -/
inductive Entry where
  | version (sid : Nat)
  | notice (sid : Nat)
  | fullName (sid : Nat)
  | familyName (sid : Nat)
  | weight (sid : Nat)
  | copyright (sid : Nat)
  | fontName (sid : Nat)
  | fontBbox (vals : List Operand)
  | fontMatrix (vals : List Operand)
  | italicAngle (v : Operand)
  | underlinePosition (v : Operand)
  | underlineThickness (v : Operand)
  | paintType (v : Operand)
  | charstringType (v : Operand)
  | strokeWidth (v : Operand)
  | isFixedPitch (v : Operand)
  | uniqueId (v : Operand)
  | charset (v : Operand)
  | encoding (v : Operand)
  | charstringsOffset (v : Operand)
  | privateDictRange (size offset : Operand)
  | fdArrayOffset (v : Operand)
  | fdSelectOffset (v : Operand)
  | variationStoreOffset (v : Operand)
  | otherOp (code : Nat) (operands : List Operand)
  deriving Repr, DecidableEq

/-- A StringId operand as a u16, the cast the source performs. -/
def sidOf (i : Int) : Nat := (i % 65536).toNat

/-- Modelled from the spec: mapping of one-byte operator codes to entries,
checking operand arity (a mismatch is a malformed-operand failure, returned
as none). Codes not in the closed set pass through as opaque entries. -/
def mkEntryOne (op : Nat) (stack : List Operand) : Option Entry :=
  match op, stack with
  | 0, [.int i] => some (.version (sidOf i))
  | 0, _ => none
  | 1, [.int i] => some (.notice (sidOf i))
  | 1, _ => none
  | 2, [.int i] => some (.fullName (sidOf i))
  | 2, _ => none
  | 3, [.int i] => some (.familyName (sidOf i))
  | 3, _ => none
  | 4, [.int i] => some (.weight (sidOf i))
  | 4, _ => none
  | 5, [a, b, c, d] => some (.fontBbox [a, b, c, d])
  | 5, _ => none
  | 13, [v] => some (.uniqueId v)
  | 13, _ => none
  | 15, [v] => some (.charset v)
  | 15, _ => none
  | 16, [v] => some (.encoding v)
  | 16, _ => none
  | 17, [v] => some (.charstringsOffset v)
  | 17, _ => none
  | 18, [a, b] => some (.privateDictRange a b)
  | 18, _ => none
  | _, s => some (.otherOp op s)

/-- Modelled from the spec: mapping of 12-prefixed two-byte operator codes to
entries, with arity checking as for one-byte codes. -/
def mkEntryTwo (op : Nat) (stack : List Operand) : Option Entry :=
  match op, stack with
  | 0, [.int i] => some (.copyright (sidOf i))
  | 0, _ => none
  | 1, [v] => some (.isFixedPitch v)
  | 1, _ => none
  | 2, [v] => some (.italicAngle v)
  | 2, _ => none
  | 3, [v] => some (.underlinePosition v)
  | 3, _ => none
  | 4, [v] => some (.underlineThickness v)
  | 4, _ => none
  | 5, [v] => some (.paintType v)
  | 5, _ => none
  | 6, [v] => some (.charstringType v)
  | 6, _ => none
  | 7, [a, b, c, d, e, f] => some (.fontMatrix [a, b, c, d, e, f])
  | 7, _ => none
  | 8, [v] => some (.strokeWidth v)
  | 8, _ => none
  | 36, [v] => some (.fdArrayOffset v)
  | 36, _ => none
  | 37, [v] => some (.fdSelectOffset v)
  | 37, _ => none
  | 38, [.int i] => some (.fontName (sidOf i))
  | 38, _ => none
  | _, s => some (.otherOp (1200 + op) s)

/-- Signed 16-bit big-endian value of two bytes. -/
def i16Of (b0 b1 : Nat) : Int :=
  let v := b0 * 256 + b1
  if v < 32768 then (v : Int) else (v : Int) - 65536

/-- Signed 32-bit big-endian value of four bytes. -/
def i32Of (b0 b1 b2 b3 : Nat) : Int :=
  let v := b0 * 16777216 + b1 * 65536 + b2 * 256 + b3
  if v < 2147483648 then (v : Int) else (v : Int) - 4294967296

/-- Consume the nibble bytes of a real operand up to and including the byte
holding a terminating f nibble; none when the input ends first. -/
def takeReal : Nat → List Nat → Option (List Nat × List Nat)
  | 0, _ => none
  | _, [] => none
  | fuel + 1, b :: r =>
    if b % 16 = 15 ∨ b / 16 = 15 then some ([b], r)
    else
      match takeReal fuel r with
      | some (ns, rem) => some (b :: ns, rem)
      | none => none

/-- Modelled from the spec: the fuelled worker of the Top DICT entry decoder
(the dict entries iterator of read-fonts). Operand bytes push onto the
stack; an operator byte closes one entry and clears the stack; reserved
byte codes and malformed operands fail. -/
def dictEntriesAux : Nat → List Nat → List Operand → Option (List Entry)
  | 0, _, _ => none
  | _, [], _ => some []
  | fuel + 1, b :: rest, stack =>
    if b = 12 then
      match rest with
      | b1 :: r =>
        match mkEntryTwo b1 stack with
        | some e =>
          match dictEntriesAux fuel r [] with
          | some es => some (e :: es)
          | none => none
        | none => none
      | [] => none
    else if b ≤ 21 then
      match mkEntryOne b stack with
      | some e =>
        match dictEntriesAux fuel rest [] with
        | some es => some (e :: es)
        | none => none
      | none => none
    else if b = 28 then
      match rest with
      | b1 :: b2 :: r => dictEntriesAux fuel r (stack ++ [.int (i16Of b1 b2)])
      | _ => none
    else if b = 29 then
      match rest with
      | b1 :: b2 :: b3 :: b4 :: r =>
          dictEntriesAux fuel r (stack ++ [.int (i32Of b1 b2 b3 b4)])
      | _ => none
    else if b = 30 then
      match takeReal (rest.length + 1) rest with
      | some (ns, rem) => dictEntriesAux fuel rem (stack ++ [.real ns])
      | none => none
    else if 32 ≤ b ∧ b ≤ 246 then
      dictEntriesAux fuel rest (stack ++ [.int ((b : Int) - 139)])
    else if 247 ≤ b ∧ b ≤ 250 then
      match rest with
      | b1 :: r =>
          dictEntriesAux fuel r (stack ++ [.int ((b - 247 : Int) * 256 + b1 + 108)])
      | [] => none
    else if 251 ≤ b ∧ b ≤ 254 then
      match rest with
      | b1 :: r =>
          dictEntriesAux fuel r (stack ++ [.int (-((b - 251 : Int) * 256) - b1 - 108)])
      | [] => none
    else none

/-- Modelled from the spec: decode a Top DICT byte string into its entry
list; none models the per-element parse failure the source surfaces. -/
def dictEntries (bytes : List Nat) : Option (List Entry) :=
  dictEntriesAux (bytes.length + 1) bytes []

/-- The TopDictData structured view of cff.rs: optional byte-list values for
the six special-cased string fields, pass-through raw entries, and the
StringId-to-text map (the Rust HashMap modelled as an association list). -/
structure TopDictData where
  version : Option (List Nat)
  notice : Option (List Nat)
  full_name : Option (List Nat)
  family_name : Option (List Nat)
  weight : Option (List Nat)
  copyright : Option (List Nat)
  raw_entries : List Entry
  string_id_to_string : List (Nat × List Nat)
  deriving Repr, DecidableEq

/-- TopDictData::new, the all-empty default. -/
def TopDictData.empty : TopDictData :=
  ⟨none, none, none, none, none, none, [], []⟩

/-- HashMap::insert modelled on the association list: replace the value when
the key is present, append otherwise. -/
def mapInsert (m : List (Nat × List Nat)) (k : Nat) (v : List Nat) :
    List (Nat × List Nat) :=
  if m.any (fun kv => kv.1 = k) then
    m.map (fun kv => if kv.1 = k then (k, v) else kv)
  else m ++ [(k, v)]

/-- ASCII bytes of the text 2.9, the fixture resolution of the version id. -/
def fixtureVersionBytes : List Nat := [50, 46, 57]

/-- ASCII bytes of the text Noto Serif Display, the fixture resolution of
the family-name id. -/
def fixtureFamilyBytes : List Nat :=
  [78, 111, 116, 111, 32, 83, 101, 114, 105, 102, 32, 68, 105, 115, 112,
   108, 97, 121]

/-- Modelled from the spec: string resolution against the compiled-in
NOTO_SERIF_DISPLAY_TRIMMED fixture font that get_top_dict_data consults
(the fixture bytes live in the font-test-data crate, not under src). The
spec documents only that the fixture resolves its version id to 2.9 and its
family-name id to Noto Serif Display; other ids are left unresolved here.
No theorem below depends on the values this function returns. -/
def fixtureString (sid : Nat) : Option (List Nat) :=
  if sid = 391 then some fixtureVersionBytes
  else if sid = 392 then some fixtureFamilyBytes
  else none

/-- ASCII bytes of the fallback text UnknownString_ followed by the decimal
id, produced when the fixture cannot resolve an id. -/
def unknownStringBytes (sid : Nat) : List Nat :=
  [85, 110, 107, 110, 111, 119, 110, 83, 116, 114, 105, 110, 103, 95]
    ++ decDigits sid

/-- The string value get_top_dict_data stores for a StringId: the fixture
resolution when available, the fallback text otherwise. -/
def fixtureResolve (sid : Nat) : List Nat :=
  match fixtureString sid with
  | some v => v
  | none => unknownStringBytes sid

/-- One step of the entry loop of get_top_dict_data: the six special-cased
string entries set their field and record the id-to-text mapping; every
other entry is appended to raw_entries. -/
def applyEntry (acc : TopDictData) (e : Entry) : TopDictData :=
  match e with
  | .version sid =>
    { acc with version := some (fixtureResolve sid),
               string_id_to_string :=
                 mapInsert acc.string_id_to_string sid (fixtureResolve sid) }
  | .notice sid =>
    { acc with notice := some (fixtureResolve sid),
               string_id_to_string :=
                 mapInsert acc.string_id_to_string sid (fixtureResolve sid) }
  | .fullName sid =>
    { acc with full_name := some (fixtureResolve sid),
               string_id_to_string :=
                 mapInsert acc.string_id_to_string sid (fixtureResolve sid) }
  | .familyName sid =>
    { acc with family_name := some (fixtureResolve sid),
               string_id_to_string :=
                 mapInsert acc.string_id_to_string sid (fixtureResolve sid) }
  | .weight sid =>
    { acc with weight := some (fixtureResolve sid),
               string_id_to_string :=
                 mapInsert acc.string_id_to_string sid (fixtureResolve sid) }
  | .copyright sid =>
    { acc with copyright := some (fixtureResolve sid),
               string_id_to_string :=
                 mapInsert acc.string_id_to_string sid (fixtureResolve sid) }
  | e => { acc with raw_entries := acc.raw_entries ++ [e] }

/-- get_top_dict_data from cff.rs: an empty Top DICT INDEX yields an empty
view with an ok outcome; otherwise the first Top DICT bytes are fetched,
decoded into entries, and folded into the structured view, with string
values taken from the fixture font rather than from this Cff value. -/
def getTopDictData (c : Cff) : Res TopDictData :=
  if c.top_dicts.count = 0 then .ok TopDictData.empty
  else
    Res.bind (getTopDictBytes c 0) (fun bytes =>
      match dictEntries bytes with
      | none => .err .dictParseError
      | some entries => .ok (entries.foldl applyEntry TopDictData.empty))

/-- The list of an optional element. -/
def optL (o : Option (List Nat)) : List (List Nat) :=
  match o with
  | some v => [v]
  | none => []

/-- The strings set_top_dict_data appends after the kept ones, in the fixed
source order version, notice, full_name, family_name, weight, copyright. -/
def appendedStrings (t : TopDictData) : List (List Nat) :=
  optL t.version ++ optL t.notice ++ optL t.full_name ++ optL t.family_name
    ++ optL t.weight ++ optL t.copyright

/-- The replacement test of the existing-strings loop: is the lossily
decoded text of an existing string equal to any value of the id-to-text
map of the view. -/
def shouldReplace (t : TopDictData) (v : List Nat) : Bool :=
  t.string_id_to_string.any (fun kv => v = kv.2)

/-- The existing-strings loop of set_top_dict_data, iterating index i while
the given number of iterations remains: each existing string is fetched (a
failure propagates), and kept as raw bytes unless its decoded text matches a
mapped value. -/
def keptLoop (c : Cff) (t : TopDictData) : Nat → Nat → Res (List (List Nat))
  | _, 0 => .ok []
  | i, r + 1 =>
    Res.bind (getStringBytes c i) (fun bytes =>
    Res.bind (keptLoop c t (i + 1) r) (fun rest =>
    if shouldReplace t (utf8Lossy bytes) then .ok rest
    else .ok (bytes :: rest)))

/-- The kept existing strings of set_top_dict_data, scanning all
strings.count entries from index 0. -/
def keptStrings (c : Cff) (t : TopDictData) : Res (List (List Nat)) :=
  keptLoop c t 0 c.strings.count

/-- The low three big-endian bytes of a u32, as emitted by taking the
to_be_bytes tail: any bits above 2 to the 24 are silently dropped. -/
def be3 (v : Nat) : List Nat := [v / 65536 % 256, v / 256 % 256, v % 256]

/-- The running-offset loop of set_top_dict_data: after each string the
cumulative 1-based offset is pushed as its low three bytes. -/
def offsetsAux (cur : Nat) : List (List Nat) → List Nat
  | [] => []
  | s :: rest => be3 (cur + s.length) ++ offsetsAux (cur + s.length) rest

/-- The full offsets array set_top_dict_data builds: the initial offset 1
followed by the cumulative offsets of all strings. -/
def builtOffsets (ss : List (List Nat)) : List Nat := be3 1 ++ offsetsAux 1 ss

/-- set_top_dict_data from cff.rs, in state-passing form: the returned Cff
is the receiver after the call. An empty Top DICT INDEX errors before any
change; the existing-strings loop may error or panic, also before any
change; then the strings INDEX alone is replaced by one holding the kept
strings followed by the appended ones, with a count field computed as
old count plus appended minus map size (a u16 cast wraps it, and a debug
underflow panics), and a hardcoded off_size of 3. The u32 running-offset
additions panic in debug exactly when the final cumulative offset would
overflow, modelled by the single upfront comparison. The Top DICT bytes are
never rewritten. -/
def setTopDictData (c : Cff) (t : TopDictData) : Res Unit × Cff :=
  if c.top_dicts.count = 0 then (.err .noTopDict, c)
  else
    match keptStrings c t with
    | .err e => (.err e, c)
    | .crash => (.crash, c)
    | .ok kept =>
      let appended := appendedStrings t
      if c.strings.count + appended.length < t.string_id_to_string.length then
        (.crash, c)
      else
        let total := c.strings.count + appended.length
          - t.string_id_to_string.length
        let allStrings := kept ++ appended
        let allData := allStrings.flatten
        if 4294967296 ≤ 1 + allData.length then (.crash, c)
        else
          (.ok (), { c with strings :=
            ⟨total % 65536, 3, builtOffsets allStrings, allData⟩ })

/-- Big-endian two-byte encoding of a u16 value. -/
def be2 (v : Nat) : List Nat := [v / 256 % 256, v % 256]

/-- Modelled from the spec: serialization of one INDEX (the generated
FontWrite code for Index1 is not under src). An empty INDEX is just the
two count bytes; otherwise count, off_size, the raw offset bytes and the
data follow in order. -/
def serializeIndex (ix : Index1) : List Nat :=
  be2 ix.count ++
    (if ix.count = 0 then [] else ix.off_size :: (ix.offsets ++ ix.data))

/-- Modelled from the spec: serialization of the CFF header (the generated
FontWrite code for CffHeader is not under src): the four header bytes
followed by reserved padding up to header_size. -/
def serializeHeader (h : CffHeader) : List Nat :=
  [h.major, h.minor, h.header_size, h.off_size]
    ++ List.replicate (h.header_size - 4) 0

/-- write_into for Cff from cff.rs: header then the four INDEX structures
in source order. -/
def serializeCff (c : Cff) : List Nat :=
  serializeHeader c.header ++ serializeIndex c.names
    ++ serializeIndex c.top_dicts ++ serializeIndex c.strings
    ++ serializeIndex c.global_subrs

/-- Big-endian value of a byte list. -/
def beValue (l : List Nat) : Nat := l.foldl (fun a b => a * 256 + b) 0

/-- The decoded logical offset values of an INDEX offsets array. -/
def offsetValues (offs : List Nat) (w count : Nat) : List Nat :=
  (List.range (count + 1)).map (fun i => beValue ((offs.drop (i * w)).take w))

/-- Boolean non-decreasing check over a list of offsets. -/
def nonDecreasing : List Nat → Bool
  | [] => true
  | [_] => true
  | a :: b :: rest => a ≤ b && nonDecreasing (b :: rest)

/-- Modelled from the spec: parsing one INDEX from a byte stream, returning
the INDEX and the remaining bytes. Reads count; zero means an empty INDEX
consuming only the two count bytes; otherwise reads off_size (validated to
1 through 4), count plus one offsets, checks they start at 1 and are
non-decreasing, and takes the data sized by the last offset. -/
def parseIndex (bytes : List Nat) : Res (Index1 × List Nat) :=
  match bytes with
  | b0 :: b1 :: rest =>
    let count := b0 * 256 + b1
    if count = 0 then .ok (⟨0, 0, [], []⟩, rest)
    else
      match rest with
      | [] => .err .truncatedIndex
      | w :: r2 =>
        if w = 0 ∨ 4 < w then .err .invalidOffsetSize
        else
          let offLen := (count + 1) * w
          if r2.length < offLen then .err .truncatedIndex
          else
            let offs := r2.take offLen
            let r3 := r2.drop offLen
            let vals := offsetValues offs w count
            if vals.head? ≠ some 1 ∨ nonDecreasing vals = false
            then .err .malformedOffsets
            else
              let lastOff := beValue ((offs.drop (count * w)).take w)
              if r3.length < lastOff - 1 then .err .truncatedIndex
              else .ok (⟨count, w, offs, r3.take (lastOff - 1)⟩,
                        r3.drop (lastOff - 1))
  | _ => .err .truncatedIndex

/-- Modelled from the spec: parsing the CFF header, skipping to header_size
where the first INDEX begins. -/
def parseHeader (bytes : List Nat) : Res (CffHeader × List Nat) :=
  match bytes with
  | a :: b :: c :: d :: _ =>
    if c < 4 ∨ bytes.length < c then .err .truncatedHeader
    else .ok (⟨a, b, c, d⟩, bytes.drop c)
  | _ => .err .truncatedHeader

/-- Modelled from the spec: parsing a whole CFF table, header then the four
INDEX structures in fixed order. -/
def parseCff (bytes : List Nat) : Res Cff :=
  match parseHeader bytes with
  | .err e => .err e
  | .crash => .crash
  | .ok (h, r0) =>
    match parseIndex r0 with
    | .err e => .err e
    | .crash => .crash
    | .ok (names, r1) =>
      match parseIndex r1 with
      | .err e => .err e
      | .crash => .crash
      | .ok (topDicts, r2) =>
        match parseIndex r2 with
        | .err e => .err e
        | .crash => .crash
        | .ok (strings, r3) =>
          match parseIndex r3 with
          | .err e => .err e
          | .crash => .crash
          | .ok (globalSubrs, _) => .ok ⟨h, names, topDicts, strings, globalSubrs⟩

/-- Modelled from the spec: the CFF2 header record of the generated write
types (the generated code is not under src): major and minor version bytes,
header size and the u16 top DICT length. -/
structure Cff2Header where
  major : Nat
  minor : Nat
  header_size : Nat
  top_dict_length : Nat
  deriving Repr, DecidableEq

/-- The CFF2 TopDictData struct of cff2.rs. Textual fields are UTF-8 byte
lists; the f32 fields are modelled by their numeric content as integers,
which no theorem below inspects. -/
structure Cff2TopDictData where
  version : Option (List Nat)
  notice : Option (List Nat)
  full_name : Option (List Nat)
  family_name : Option (List Nat)
  weight : Option (List Nat)
  font_bbox : Option (List Int)
  charstrings_offset : Option Nat
  variation_store_offset : Option Nat
  fd_array_offset : Option Nat
  fd_select_offset : Option Nat
  copyright : Option (List Nat)
  is_fixed_pitch : Option Bool
  italic_angle : Option Int
  underline_position : Option Int
  underline_thickness : Option Int
  paint_type : Option Int
  charstring_type : Option Int
  font_matrix : Option (List Int)
  stroke_width : Option Int
  font_name : Option (List Nat)
  deriving Repr, DecidableEq

/-- The Cff2 write type of cff2.rs: header, top DICT data and global
subroutines. -/
structure Cff2 where
  header : Cff2Header
  top_dict_data : Cff2TopDictData
  global_subrs : List (List Nat)
  deriving Repr, DecidableEq

/-- Modelled from the spec: serialization of the CFF2 header (generated
code not under src): major, minor, header size, and the two top DICT
length bytes. -/
def cff2HeaderWrite (h : Cff2Header) : List Nat :=
  [h.major, h.minor, h.header_size] ++ be2 h.top_dict_length

/-- write_into for Cff2 from cff2.rs: only the header is written; the top
DICT data and global subroutines are ignored. -/
def cff2WriteInto (c : Cff2) : List Nat := cff2HeaderWrite c.header

/-! Concrete fixtures used by counterexamples and witnesses. -/

/-- ASCII bytes of the text Version 1.23. -/
def verNewBytes : List Nat :=
  [86, 101, 114, 115, 105, 111, 110, 32, 49, 46, 50, 51]

/-- ASCII bytes of the text This is a Font Family Name. -/
def famNewBytes : List Nat :=
  [84, 104, 105, 115, 32, 105, 115, 32, 97, 32, 70, 111, 110, 116, 32, 70,
   97, 109, 105, 108, 121, 32, 78, 97, 109, 101]

/-- ASCII bytes of the text extra. -/
def extraBytes : List Nat := [101, 120, 116, 114, 97]

/-- ASCII bytes of the text Brand New Name. -/
def brandNewBytes : List Nat :=
  [66, 114, 97, 110, 100, 32, 78, 101, 119, 32, 78, 97, 109, 101]

/-- A Top DICT byte string declaring Version with StringId 391, FamilyName
with StringId 392, and a FontBbox of 0 0 100 100. -/
def c1TopDictBytes : List Nat :=
  [248, 27, 0, 248, 28, 3, 139, 139, 239, 239, 5]

/-- A small well-formed Cff: one name, the Top DICT above, and three custom
strings 2.9, Noto Serif Display and extra (the last unreferenced). -/
def c1Cff : Cff :=
  ⟨⟨1, 0, 4, 1⟩,
   ⟨1, 1, [1, 2], [65]⟩,
   ⟨1, 1, [1, 12], c1TopDictBytes⟩,
   ⟨3, 1, [1, 4, 22, 27], fixtureVersionBytes ++ fixtureFamilyBytes ++ extraBytes⟩,
   ⟨0, 0, [], []⟩⟩

/-- The structured view get_top_dict_data yields for c1Cff. -/
def c1View : TopDictData :=
  ⟨some fixtureVersionBytes, none, none, some fixtureFamilyBytes, none, none,
   [.fontBbox [.int 0, .int 0, .int 100, .int 100]],
   [(391, fixtureVersionBytes), (392, fixtureFamilyBytes)]⟩

/-- The view after the end-to-end scenario mutation: version set to Version
1.23 and family_name set to This is a Font Family Name. -/
def c1Mutated : TopDictData :=
  { c1View with version := some verNewBytes, family_name := some famNewBytes }

/-- A Cff whose strings INDEX holds the single string Noto Serif Display,
with one Top DICT present. -/
def c2Cff : Cff :=
  ⟨⟨1, 0, 4, 1⟩,
   ⟨1, 1, [1, 2], [65]⟩,
   ⟨1, 1, [1, 12], c1TopDictBytes⟩,
   ⟨1, 1, [1, 19], fixtureFamilyBytes⟩,
   ⟨0, 0, [], []⟩⟩

/-- A view whose only populated field is a brand-new family name, with the
old family name still recorded in the id-to-text map. -/
def c2View : TopDictData :=
  ⟨none, none, none, some brandNewBytes, none, none, [],
   [(392, fixtureFamilyBytes)]⟩

/-- A Cff whose four INDEX structures are all empty. -/
def c3Cff : Cff :=
  ⟨⟨1, 0, 4, 1⟩, ⟨0, 0, [], []⟩, ⟨0, 0, [], []⟩, ⟨0, 0, [], []⟩,
   ⟨0, 0, [], []⟩⟩

/-- A Cff whose strings INDEX declares an off_size of 5, outside the valid
1 to 4 range, while holding one entry. -/
def c4Cff : Cff :=
  ⟨⟨1, 0, 4, 1⟩,
   ⟨1, 1, [1, 2], [65]⟩,
   ⟨1, 1, [1, 12], c1TopDictBytes⟩,
   ⟨1, 5, [1, 2], [65]⟩,
   ⟨0, 0, [], []⟩⟩

/-- A Cff whose Top DICT and strings INDEX structures each declare one entry
but carry a truncated offsets array of a single byte, shorter than the
count plus one offsets the format requires. -/
def c5Cff : Cff :=
  ⟨⟨1, 0, 4, 1⟩,
   ⟨1, 1, [1, 2], [65]⟩,
   ⟨1, 1, [1], []⟩,
   ⟨1, 1, [1], []⟩,
   ⟨0, 0, [], []⟩⟩

/-- A second Cff for the fixture-dependence witness: same Top DICT INDEX as
c1Cff but completely different strings INDEX content. -/
def c9Other : Cff :=
  { c1Cff with strings := ⟨1, 1, [1, 6], extraBytes⟩ }

/-- A Cff2 value for the serialization-frame witness. -/
def c10A : Cff2 :=
  ⟨⟨2, 0, 5, 7⟩,
   ⟨some verNewBytes, none, none, none, none, none, none, none, none, none,
    none, none, none, none, none, none, none, none, none, none⟩,
   [[1, 2, 3]]⟩

/-- A second Cff2 with the same header but different top DICT data and
global subroutines. -/
def c10B : Cff2 :=
  ⟨⟨2, 0, 5, 7⟩,
   ⟨none, none, none, some famNewBytes, none, none, none, none, none, none,
    none, none, none, none, none, none, none, none, none, none⟩,
   []⟩

/-! Helper lemmas. -/

@[simp]
theorem Res.bind_ok {α β : Type} (a : α) (f : α → Res β) :
    Res.bind (.ok a) f = f a := rfl

@[simp]
theorem Res.bind_err {α β : Type} (e : ResErr) (f : α → Res β) :
    Res.bind (.err e) f = .err e := rfl

@[simp]
theorem Res.bind_crash {α β : Type} (f : α → Res β) :
    Res.bind .crash f = .crash := rfl

theorem rslice_cons (x : Nat) (l : List Nat) (a b : Nat) :
    rslice (x :: l) (a + 1) (b + 1) = rslice l a b := by
  simp [rslice, Nat.add_le_add_iff_right]

theorem rslice_append (p l : List Nat) (a b : Nat) :
    rslice (p ++ l) (p.length + a) (p.length + b) = rslice l a b := by
  induction p with
  | nil => simp
  | cons x xs ih =>
    have ha : xs.length + 1 + a = (xs.length + a) + 1 := by omega
    have hb : xs.length + 1 + b = (xs.length + b) + 1 := by omega
    simp only [List.cons_append, List.length_cons, ha, hb, rslice_cons]
    exact ih

theorem rslice_be3 (v : Nat) (l : List Nat) :
    rslice (be3 v ++ l) 0 3 = .ok (be3 v) := by
  simp [rslice, be3]

theorem readOffset_be3 (v : Nat) : readOffset (be3 v) 3 = .ok (v % 16777216) := by
  simp only [readOffset, be3, ridx, List.get?]
  norm_num
  omega

theorem offsetsAux_length (cur : Nat) (ss : List (List Nat)) :
    (offsetsAux cur ss).length = 3 * ss.length := by
  induction ss generalizing cur with
  | nil => simp [offsetsAux]
  | cons s rest ih =>
    simp only [offsetsAux, be3, List.cons_append, List.length_cons,
      List.length_append, ih, List.length_nil]
    omega

theorem rslice_offsets (ss : List (List Nat)) (cur p : Nat) (hp : p ≤ ss.length) :
    rslice (be3 cur ++ offsetsAux cur ss) (p * 3) (p * 3 + 3)
      = .ok (be3 (cur + ((ss.take p).map List.length).sum)) := by
  induction ss generalizing cur p with
  | nil =>
    have hz : p = 0 := Nat.le_zero.mp hp
    subst hz
    simpa [offsetsAux] using rslice_be3 cur []
  | cons s rest ih =>
    cases p with
    | zero => simpa using rslice_be3 cur (offsetsAux cur (s :: rest))
    | succ q =>
      have hq : q ≤ rest.length := by simpa using hp
      have h1 : (q + 1) * 3 = (be3 cur).length + q * 3 := by simp [be3]; omega
      have h2 : (q + 1) * 3 + 3 = (be3 cur).length + (q * 3 + 3) := by
        simp [be3]; omega
      calc rslice (be3 cur ++ offsetsAux cur (s :: rest)) ((q + 1) * 3)
            ((q + 1) * 3 + 3)
          = rslice (be3 cur ++ (be3 (cur + s.length)
              ++ offsetsAux (cur + s.length) rest)) ((be3 cur).length + q * 3)
              ((be3 cur).length + (q * 3 + 3)) := by
            rw [← h1, ← h2]; rfl
        _ = rslice (be3 (cur + s.length) ++ offsetsAux (cur + s.length) rest)
              (q * 3) (q * 3 + 3) := rslice_append _ _ _ _
        _ = .ok (be3 (cur + s.length + ((rest.take q).map List.length).sum)) :=
            ih (cur + s.length) q hq
        _ = .ok (be3 (cur + (((s :: rest).take (q + 1)).map List.length).sum)) := by
            simp only [List.take_succ_cons, List.map_cons, List.sum_cons]
            rw [Nat.add_assoc]

theorem sum_take_le (ss : List (List Nat)) (p : Nat) :
    ((ss.take p).map List.length).sum ≤ ss.flatten.length := by
  induction ss generalizing p with
  | nil => simp
  | cons s rest ih =>
    cases p with
    | zero => simp
    | succ q =>
      simp only [List.take_succ_cons, List.map_cons, List.sum_cons,
        List.flatten_cons, List.length_append]
      exact Nat.add_le_add_left (ih q) _

theorem sum_take_succ_of_get (ss : List (List Nat)) (p : Nat) (s : List Nat)
    (h : ss.get? p = some s) :
    ((ss.take (p + 1)).map List.length).sum
      = ((ss.take p).map List.length).sum + s.length := by
  induction ss generalizing p with
  | nil => simp at h
  | cons a rest ih =>
    cases p with
    | zero =>
      simp only [List.get?] at h
      cases h
      simp
    | succ q =>
      simp only [List.get?] at h
      simp only [List.take_succ_cons, List.map_cons, List.sum_cons, ih q h]
      omega

theorem rslice_flatten (ss : List (List Nat)) (p : Nat) (s : List Nat)
    (h : ss.get? p = some s) :
    rslice ss.flatten (((ss.take p).map List.length).sum)
      (((ss.take (p + 1)).map List.length).sum) = .ok s := by
  induction ss generalizing p with
  | nil => simp at h
  | cons a rest ih =>
    cases p with
    | zero =>
      simp only [List.get?] at h
      cases h
      simp only [List.take_zero, List.map_nil, List.sum_nil,
        List.take_succ_cons, List.take_zero, List.map_cons, List.sum_cons,
        List.flatten_cons, Nat.add_zero]
      unfold rslice
      rw [if_pos (by simp)]
      simp [List.take_left]
    | succ q =>
      simp only [List.get?] at h
      simp only [List.take_succ_cons, List.map_cons, List.sum_cons,
        List.flatten_cons]
      calc rslice (a ++ rest.flatten)
            (a.length + ((rest.take q).map List.length).sum)
            (a.length + ((rest.take (q + 1)).map List.length).sum)
          = rslice rest.flatten (((rest.take q).map List.length).sum)
              (((rest.take (q + 1)).map List.length).sum) := rslice_append _ _ _ _
        _ = .ok s := ih q h

theorem builtOffsets_length (ss : List (List Nat)) :
    (builtOffsets ss).length = 3 + 3 * ss.length := by
  simp [builtOffsets, be3, offsetsAux_length]
  omega

theorem getStringBytes_built (c : Cff) (ss : List (List Nat)) (n p : Nat)
    (s : List Nat)
    (hc : c.strings = ⟨n, 3, builtOffsets ss, ss.flatten⟩)
    (hp : p < n) (hn : n ≤ ss.length)
    (hget : ss.get? p = some s)
    (htot : ss.flatten.length + 1 < 16777216)
    (hpos : 0 < s.length) :
    getStringBytes c p = .ok s := by
  have hplen : p < ss.length := lt_of_lt_of_le hp hn
  have hsp : ((ss.take p).map List.length).sum ≤ ss.flatten.length :=
    sum_take_le ss p
  have hsp1 : ((ss.take (p + 1)).map List.length).sum ≤ ss.flatten.length :=
    sum_take_le ss (p + 1)
  have hsucc := sum_take_succ_of_get ss p s hget
  unfold getStringBytes
  rw [hc]
  dsimp only
  rw [if_neg (Nat.not_le.mpr hp)]
  rw [if_neg (by norm_num)]
  rw [if_neg (by rw [builtOffsets_length]; omega)]
  simp only [builtOffsets]
  rw [rslice_offsets ss 1 p (le_of_lt hplen)]
  rw [rslice_offsets ss 1 (p + 1) hplen]
  simp only [Res.bind_ok]
  rw [readOffset_be3, readOffset_be3]
  simp only [Res.bind_ok]
  rw [Nat.mod_eq_of_lt (by omega), Nat.mod_eq_of_lt (by omega)]
  rw [if_neg (by push_neg; constructor <;> omega)]
  rw [if_neg (by omega)]
  rw [Nat.add_sub_cancel_left, Nat.add_sub_cancel_left]
  exact rslice_flatten ss p s hget

theorem setTopDictData_ok (c : Cff) (t : TopDictData) (ks : List (List Nat))
    (h0 : c.top_dicts.count ≠ 0)
    (hk : keptStrings c t = .ok ks)
    (h1 : t.string_id_to_string.length ≤ c.strings.count + (appendedStrings t).length)
    (h2 : (ks ++ appendedStrings t).flatten.length + 1 < 4294967296) :
    setTopDictData c t = (.ok (), { c with strings :=
      ⟨(c.strings.count + (appendedStrings t).length
          - t.string_id_to_string.length) % 65536,
       3, builtOffsets (ks ++ appendedStrings t),
       (ks ++ appendedStrings t).flatten⟩ }) := by
  unfold setTopDictData
  rw [if_neg h0]
  split
  next e heq => rw [hk] at heq; cases heq
  next heq => rw [hk] at heq; cases heq
  next kept heq =>
    rw [hk] at heq
    cases heq
    rw [if_neg (Nat.not_lt.mpr h1)]
    rw [if_neg (by omega)]

theorem setTopDictData_off_size (c : Cff) (t : TopDictData) :
    (setTopDictData c t).1 ≠ Res.ok () ∨
      (setTopDictData c t).2.strings.off_size = 3 := by
  unfold setTopDictData
  split
  · exact Or.inl (by simp)
  · split
    next e heq => exact Or.inl (by simp)
    next heq => exact Or.inl (by simp)
    next kept heq =>
      dsimp only
      split
      · exact Or.inl (by simp)
      · split
        · exact Or.inl (by simp)
        · exact Or.inr rfl

theorem get_after_append (l1 l2 : List (List Nat)) (k : Nat) :
    (l1 ++ l2).get? (l1.length + k) = l2.get? k := by
  induction l1 with
  | nil => simp
  | cons a t ih => simpa [Nat.succ_add] using ih

/-! Claim theorems. -/

/-- Claim C3, counterexample: on a Cff whose Top DICT INDEX has count zero,
get_top_dict_data does not return an error; it succeeds with an empty view,
refuting the claim that both structured accessors fail. -/
theorem c3_no_top_dict_counterexample :
    c3Cff.top_dicts.count = 0 ∧
    getTopDictData c3Cff = Res.ok TopDictData.empty := by decide

/-- Claim C3, amended: when the Top DICT INDEX has count zero,
set_top_dict_data fails with the no-top-dict error and leaves the Cff
unchanged, while get_top_dict_data succeeds with the empty default view
rather than an error. -/
theorem c3_no_top_dict_amended (c : Cff) (t : TopDictData)
    (h : c.top_dicts.count = 0) :
    getTopDictData c = Res.ok TopDictData.empty ∧
    (setTopDictData c t).1 = Res.err ResErr.noTopDict ∧
    (setTopDictData c t).2 = c := by
  refine ⟨?_, ?_, ?_⟩
  · unfold getTopDictData; rw [if_pos h]
  · unfold setTopDictData; rw [if_pos h]
  · unfold setTopDictData; rw [if_pos h]

/-- Claim C3, witness: the amended theorem applied to the concrete empty
Cff. -/
theorem c3_no_top_dict_witness :
    getTopDictData c3Cff = Res.ok TopDictData.empty ∧
    (setTopDictData c3Cff TopDictData.empty).1 = Res.err ResErr.noTopDict ∧
    (setTopDictData c3Cff TopDictData.empty).2 = c3Cff :=
  c3_no_top_dict_amended c3Cff TopDictData.empty (by decide)

/-- Claim C4, counterexample: resolution of a custom StringId can fail even
when the id minus 391 is within the declared count; with an off_size of 5
the strings INDEX is malformed and resolve_string errors at id 391 although
391 minus 391 is 0, inside the count of 1 — refuting that resolution fails
exactly when the index is out of count. -/
theorem c4_resolve_counterexample :
    resolveString c4Cff 391 = Res.err ResErr.invalidOffsetSizeInStringIndex ∧
    391 - 391 < c4Cff.strings.count := by decide

/-- Claim C4, amended: ids below 391 always resolve through the builtin
standard-string lookup of the source (real names for ids 0 to 3,
placeholder text otherwise); ids of 391 and above fail with the
out-of-bounds error whenever id minus 391 reaches the strings count, and
may additionally fail on a malformed strings INDEX even within bounds. -/
theorem c4_resolve_amended (c : Cff) (v : Nat) :
    (v < 391 → resolveString c v = Res.ok (standardStringLookup v)) ∧
    (391 ≤ v → c.strings.count + 391 ≤ v →
      resolveString c v = Res.err ResErr.stringIndexOutOfBounds) := by
  constructor
  · intro h
    unfold resolveString
    rw [if_pos h]
  · intro h1 h2
    have hg : getStringBytes c (v - 391)
        = Res.err ResErr.stringIndexOutOfBounds := by
      unfold getStringBytes
      rw [if_pos (by omega)]
    unfold resolveString
    rw [if_neg (by omega), hg]
    rfl

/-- Claim C4, witness: the amended theorem applied at a standard id and at
an out-of-bounds custom id of a concrete Cff. -/
theorem c4_resolve_witness :
    resolveString c2Cff 390 = Res.ok (standardStringLookup 390) ∧
    resolveString c2Cff 392 = Res.err ResErr.stringIndexOutOfBounds :=
  ⟨(c4_resolve_amended c2Cff 390).1 (by norm_num),
   (c4_resolve_amended c2Cff 392).2 (by norm_num) (by decide)⟩

/-- Claim C5: both raw accessors panic instead of returning an error on an
INDEX whose offsets array is shorter than count plus one offsets: with
count 1, off_size 1 and a single offset byte, the end-offset slice runs
past the array and the code crashes, contradicting the never-panic claim,
whose demand of an error return matches the validation the source visibly
attempts. -/
theorem c5_accessor_panics :
    getStringBytes c5Cff 0 = Res.crash ∧
    getTopDictBytes c5Cff 0 = Res.crash := by decide

/-- Claim C7: read_offset decodes, for widths 1 through 4 given at least
width bytes, the big-endian value of exactly the first width bytes, and
fails with the invalid-offset-size error for width 0 or above 4. -/
theorem c7_read_offset (bytes : List Nat) (w : Nat) :
    (1 ≤ w → w ≤ 4 → w ≤ bytes.length →
      readOffset bytes w = Res.ok (beValue (bytes.take w))) ∧
    ((w = 0 ∨ 4 < w) → readOffset bytes w = Res.err ResErr.invalidOffsetSize) := by
  constructor
  · intro h1 h4 hlen
    interval_cases w
    · rcases bytes with _ | ⟨b0, t0⟩
      · norm_num at hlen
      · simp [readOffset, ridx, beValue]
    · rcases bytes with _ | ⟨b0, _ | ⟨b1, t1⟩⟩
      · norm_num at hlen
      · norm_num at hlen
      · simp [readOffset, ridx, beValue]
    · rcases bytes with _ | ⟨b0, _ | ⟨b1, _ | ⟨b2, t2⟩⟩⟩
      · norm_num at hlen
      · norm_num at hlen
      · norm_num at hlen
      · simp [readOffset, ridx, beValue]
        ring
    · rcases bytes with _ | ⟨b0, _ | ⟨b1, _ | ⟨b2, _ | ⟨b3, t3⟩⟩⟩⟩
      · norm_num at hlen
      · norm_num at hlen
      · norm_num at hlen
      · norm_num at hlen
      · simp [readOffset, ridx, beValue]
        ring
  · intro h
    rcases h with rfl | h
    · rfl
    · obtain ⟨k, rfl⟩ : ∃ k, w = k + 5 := ⟨w - 5, by omega⟩
      rfl

/-- Claim C7, witness: the theorem applied at a concrete two-byte slice and
at an oversized width. -/
theorem c7_read_offset_witness :
    readOffset [1, 2] 2 = Res.ok (beValue ([1, 2].take 2)) ∧
    readOffset [1, 2] 5 = Res.err ResErr.invalidOffsetSize :=
  ⟨(c7_read_offset [1, 2] 2).1 (by norm_num) (by norm_num) (by norm_num),
   (c7_read_offset [1, 2] 5).2 (Or.inr (by norm_num))⟩

/-- Claim C8: set_top_dict_data modifies at most the strings field: header,
names, top_dicts and global_subrs are preserved on every path, and whenever
the call does not succeed the whole Cff is returned unchanged. -/
theorem c8_set_frame (c : Cff) (t : TopDictData) :
    (setTopDictData c t).2.header = c.header ∧
    (setTopDictData c t).2.names = c.names ∧
    (setTopDictData c t).2.top_dicts = c.top_dicts ∧
    (setTopDictData c t).2.global_subrs = c.global_subrs ∧
    ((setTopDictData c t).1 = Res.ok () ∨ (setTopDictData c t).2 = c) := by
  unfold setTopDictData
  split
  · exact ⟨rfl, rfl, rfl, rfl, Or.inr rfl⟩
  · split
    next e heq => exact ⟨rfl, rfl, rfl, rfl, Or.inr rfl⟩
    next heq => exact ⟨rfl, rfl, rfl, rfl, Or.inr rfl⟩
    next kept heq =>
      dsimp only
      split
      · exact ⟨rfl, rfl, rfl, rfl, Or.inr rfl⟩
      · split
        · exact ⟨rfl, rfl, rfl, rfl, Or.inr rfl⟩
        · exact ⟨rfl, rfl, rfl, rfl, Or.inl rfl⟩

/-- Claim C9: get_top_dict_data is a function of the first Top DICT bytes
alone; any two Cff values with the same first Top DICT bytes and nonempty
Top DICT INDEX structures produce identical structured views, whatever
their strings INDEX contents, because string values come from the
compiled-in fixture font. -/
theorem c9_fixture_dependence (a b : Cff)
    (h1 : a.top_dicts.count ≠ 0) (h2 : b.top_dicts.count ≠ 0)
    (hb : getTopDictBytes a 0 = getTopDictBytes b 0) :
    getTopDictData a = getTopDictData b := by
  unfold getTopDictData
  rw [if_neg h1, if_neg h2, hb]

/-- Claim C9, witness: two concrete Cff values with equal Top DICT bytes
but different strings INDEX contents yield the same structured view. -/
theorem c9_fixture_dependence_witness :
    getTopDictData c1Cff = getTopDictData c9Other ∧
    c1Cff.strings ≠ c9Other.strings :=
  ⟨c9_fixture_dependence c1Cff c9Other (by decide) (by decide) (by decide),
   by decide⟩

/-- Claim C10: serialization of a Cff2 emits exactly the header bytes, so
any two Cff2 values with equal headers serialize identically regardless of
their top DICT data and global subroutines. -/
theorem c10_cff2_header_only (a b : Cff2) (h : a.header = b.header) :
    cff2WriteInto a = cff2HeaderWrite a.header ∧
    cff2WriteInto a = cff2WriteInto b :=
  ⟨rfl, by unfold cff2WriteInto; rw [h]⟩

/-- Claim C10, witness: two concrete Cff2 values with the same header but
different top DICT data serialize to the same bytes. -/
theorem c10_cff2_header_only_witness :
    cff2WriteInto c10A = cff2WriteInto c10B ∧
    c10A.top_dict_data ≠ c10B.top_dict_data :=
  ⟨(c10_cff2_header_only c10A c10B (by decide)).2, by decide⟩

/-- Claim C6, counterexample: rebuilding the strings INDEX for a table
whose whole data fits one byte of addressing still uses off_size 3, not
the minimal width 1, refuting minimality. -/
theorem c6_off_size_counterexample :
    (setTopDictData c2Cff c2View).1 = Res.ok () ∧
    (setTopDictData c2Cff c2View).2.strings.off_size = 3 ∧
    (setTopDictData c2Cff c2View).2.strings.data.length + 1 < 256 := by decide

/-- Claim C6, amended: whenever set_top_dict_data succeeds, the rebuilt
strings INDEX carries the hardcoded off_size 3 regardless of the maximum
offset; offsets are emitted as the low three bytes of the running u32
total, so larger offsets would be truncated rather than widened. -/
theorem c6_off_size_amended (c : Cff) (t : TopDictData)
    (h : (setTopDictData c t).1 = Res.ok ()) :
    (setTopDictData c t).2.strings.off_size = 3 := by
  rcases setTopDictData_off_size c t with h2 | h2
  · exact absurd h h2
  · exact h2

/-- Claim C6, witness: the amended theorem applied at a concrete
successful call. -/
theorem c6_off_size_witness :
    (setTopDictData c2Cff c2View).2.strings.off_size = 3 :=
  c6_off_size_amended c2Cff c2View (by decide)

/-- Claim C2, counterexample: on a Cff with one custom string and a view
whose family_name is a brand-new value while the map still records the old
one, set_top_dict_data leaves the custom string count at 1 instead of
growing it to 2, and the claimed new StringId 392 does not resolve —
refuting that a brand-new family name appends exactly one string at
391 plus the old count. -/
theorem c2_dedup_counterexample :
    c2Cff.strings.count = 1 ∧
    (setTopDictData c2Cff c2View).1 = Res.ok () ∧
    (setTopDictData c2Cff c2View).2.strings.count = 1 ∧
    resolveString (setTopDictData c2Cff c2View).2 392
      = Res.err ResErr.stringIndexOutOfBounds := by decide

/-- Claim C2, amended: set_top_dict_data rebuilds the strings INDEX by
dropping every existing string whose text equals a mapped value and
appending one string per populated structured field, so the new count is
the old count plus the appended number minus the map size (unchanged in
the common replace scenario, not old count plus one), and the new
family-name string lands at StringId 391 plus the number of kept strings
plus the number of populated fields before family_name, not at 391 plus
the old count. -/
theorem c2_dedup_amended (c : Cff) (t : TopDictData) (ks : List (List Nat))
    (s : List Nat)
    (h0 : c.top_dicts.count ≠ 0)
    (hk : keptStrings c t = Res.ok ks)
    (hfam : t.family_name = some s)
    (hmap : t.string_id_to_string.length
      ≤ c.strings.count + (appendedStrings t).length)
    (hcons : ks.length + (appendedStrings t).length
      = c.strings.count + (appendedStrings t).length
        - t.string_id_to_string.length)
    (hsmall : c.strings.count + (appendedStrings t).length
      - t.string_id_to_string.length < 65536)
    (hdata : (ks ++ appendedStrings t).flatten.length + 1 < 16777216)
    (hpos : 0 < s.length) :
    (setTopDictData c t).1 = Res.ok () ∧
    (setTopDictData c t).2.strings.count
      = c.strings.count + (appendedStrings t).length
        - t.string_id_to_string.length ∧
    resolveString (setTopDictData c t).2
        (391 + (ks.length
          + (optL t.version ++ optL t.notice ++ optL t.full_name).length))
      = Res.ok (utf8Lossy s) := by
  have hset := setTopDictData_ok c t ks h0 hk hmap (by omega)
  have happ : appendedStrings t
      = (optL t.version ++ optL t.notice ++ optL t.full_name)
        ++ (s :: (optL t.weight ++ optL t.copyright)) := by
    unfold appendedStrings
    rw [hfam]
    simp [optL]
  have hlenapp : (appendedStrings t).length
      = (optL t.version ++ optL t.notice ++ optL t.full_name).length
        + (1 + (optL t.weight ++ optL t.copyright).length) := by
    rw [happ]
    simp
    omega
  have hget : (ks ++ appendedStrings t).get?
      (ks.length
        + (optL t.version ++ optL t.notice ++ optL t.full_name).length)
      = some s := by
    rw [get_after_append, happ]
    simpa using get_after_append
      (optL t.version ++ optL t.notice ++ optL t.full_name)
      (s :: (optL t.weight ++ optL t.copyright)) 0
  refine ⟨?_, ?_, ?_⟩
  · rw [hset]
  · rw [hset]
    exact Nat.mod_eq_of_lt hsmall
  · rw [hset]
    unfold resolveString
    rw [if_neg (by omega)]
    have hsub : 391 + (ks.length
        + (optL t.version ++ optL t.notice ++ optL t.full_name).length) - 391
        = ks.length
          + (optL t.version ++ optL t.notice ++ optL t.full_name).length := by
      omega
    rw [hsub]
    rw [getStringBytes_built _ (ks ++ appendedStrings t)
      ((c.strings.count + (appendedStrings t).length
        - t.string_id_to_string.length) % 65536)
      (ks.length
        + (optL t.version ++ optL t.notice ++ optL t.full_name).length)
      s rfl
      (by rw [Nat.mod_eq_of_lt hsmall]; omega)
      (by rw [Nat.mod_eq_of_lt hsmall]; simp; omega)
      hget hdata hpos]
    rfl

/-- Claim C2, witness: the amended theorem applied at the concrete Cff and
view of the counterexample, where the old family string is replaced, the
count stays at 1, and the new string resolves at StringId 391. -/
theorem c2_dedup_amended_witness :
    (setTopDictData c2Cff c2View).1 = Res.ok () ∧
    (setTopDictData c2Cff c2View).2.strings.count
      = c2Cff.strings.count + (appendedStrings c2View).length
        - c2View.string_id_to_string.length ∧
    resolveString (setTopDictData c2Cff c2View).2
        (391 + (([] : List (List Nat)).length
          + (optL c2View.version ++ optL c2View.notice
              ++ optL c2View.full_name).length))
      = Res.ok (utf8Lossy brandNewBytes) :=
  c2_dedup_amended c2Cff c2View [] brandNewBytes (by decide) (by decide) rfl
    (by decide) (by decide) (by decide) (by decide) (by decide)

/-- Claim C1: the end-to-end mutate, serialize, re-parse scenario fails on
the code. On a Cff whose first Top DICT holds Version with StringId 391 and
FamilyName with StringId 392 consistently with the fixture resolution,
setting version and family_name in the structured view and applying
set_top_dict_data rebuilds only the strings INDEX and never rewrites the
Top DICT bytes; the serialized output re-parses to the same value, its Top
DICT still names StringIds 391 and 392, and StringId 392 now resolves to
the new version text while 391 resolves to the unrelated kept string, so
neither field resolves to its assigned value. -/
theorem c1_mutation_not_relinked :
    getTopDictData c1Cff = Res.ok c1View ∧
    (setTopDictData c1Cff c1Mutated).1 = Res.ok () ∧
    parseCff (serializeCff (setTopDictData c1Cff c1Mutated).2)
      = Res.ok (setTopDictData c1Cff c1Mutated).2 ∧
    getTopDictBytes (setTopDictData c1Cff c1Mutated).2 0
      = Res.ok c1TopDictBytes ∧
    dictEntries c1TopDictBytes
      = some [Entry.version 391, Entry.familyName 392,
          Entry.fontBbox [Operand.int 0, Operand.int 0, Operand.int 100,
            Operand.int 100]] ∧
    resolveString (setTopDictData c1Cff c1Mutated).2 392
      = Res.ok verNewBytes ∧
    resolveString (setTopDictData c1Cff c1Mutated).2 391
      = Res.ok extraBytes ∧
    verNewBytes ≠ famNewBytes ∧ extraBytes ≠ verNewBytes := by decide

end CffCodec
